import Mathlib

/-!
Verification development for the paypal-webhook-handler repository.

The handlers of `src/index.ts` (order intake, the webhook reconciliation
transaction, the monthly rollover) and the reporting callables of
`src/index.js` are embedded shallowly: Firestore state is explicit, JS
numbers are rationals with `none` standing for NaN, `Date.now()` and
`serverTimestamp()` are an integer parameter, and the `YYYY-MM` string of
the current date is a string parameter.
-/

namespace PaypalWebhook

/-- Numbers as JavaScript carries them: a rational value, or none for NaN. -/
abbrev JsNum := Option ℚ

/-- Addition on JavaScript numbers; NaN propagates. -/
def jnAdd : JsNum → JsNum → JsNum
  | some a, some b => some (a + b)
  | _, _ => none

/-- Multiplication on JavaScript numbers; NaN propagates. -/
def jnMul : JsNum → JsNum → JsNum
  | some a, some b => some (a * b)
  | _, _ => none

/-- JavaScript truthiness on an optional string: undefined and the empty
string are falsy; a truthy string is returned as is. -/
def truthyStr : Option String → Option String
  | some s => if s = "" then none else some s
  | none => none

/-- The JavaScript expression a || b on optional strings. -/
def jsOrStr (a b : Option String) : Option String :=
  match truthyStr a with
  | some s => some s
  | none => b

/-- The JavaScript expression a || d with a plain string default. -/
def jsOrStrD (a : Option String) (d : String) : String :=
  match truthyStr a with
  | some s => s
  | none => d

/-- Numeric value of a list of decimal digit characters. -/
def digitsToNat (cs : List Char) : Nat :=
  cs.foldl (fun acc c => acc * 10 + (c.toNat - 48)) 0

/-- Unsigned part of a canonical decimal numeral: digits, optionally
followed by a dot and digits (at least one digit overall). -/
def parseUnsigned (cs : List Char) : Option ℚ :=
  let p := cs.span Char.isDigit
  match p.2 with
  | [] => if p.1.isEmpty then none else some (digitsToNat p.1)
  | '.' :: frac =>
    if (p.1.isEmpty && frac.isEmpty) || !frac.all Char.isDigit then none
    else some ((digitsToNat p.1 : ℚ) + (digitsToNat frac : ℚ) / (10 : ℚ) ^ frac.length)
  | _ => none

/-- Models JavaScript parseFloat on canonical decimal numerals: an optional
sign, then digits with an optional fractional part.  Any other string
(including the empty string) yields none, which models NaN; prefix parsing
of strings with trailing garbage is not modelled, as no handler input of
interest exercises it. -/
def parseFloatQ (s : String) : JsNum :=
  match s.toList with
  | '-' :: rest => (parseUnsigned rest).map (fun q => -q)
  | '+' :: rest => parseUnsigned rest
  | cs => parseUnsigned cs

/-- An entry of the static price table in createPayPalOrder (index.ts). -/
structure Tier where
  currency_code : String
  value : String
  description : String
  deriving DecidableEq

/-- The static price table paymentTiers of createPayPalOrder in index.ts. -/
def paymentTiers (id : String) : Option Tier :=
  if id = "local" then some ⟨"USD", "50.00", "Local (Botswana Citizens) Membership"⟩
  else if id = "sadc" then some ⟨"USD", "100.00", "SADC Citizens Membership"⟩
  else if id = "global" then some ⟨"USD", "380.00", "Access for international users"⟩
  else none

/-- The body of the order-creation request sent to the payment processor. -/
structure OrderRequest where
  reference_id : String
  currency_code : String
  value : String
  description : String
  deriving DecidableEq

/-- Error codes of functions.https.HttpsError raised by the handlers. -/
inductive HttpsErrorCode where
  | unauthenticated
  | invalidArgument
  | internal
  deriving DecidableEq

/-- Models createPayPalOrder from index.ts up to the processor call: it
validates the caller identity and the tier against the price table and
returns the processor request it would then issue; an error result means
the processor is never called. -/
def createPayPalOrder (authUid : Option String) (selectedTierId : Option String)
    (userId : String) : Except HttpsErrorCode OrderRequest :=
  match truthyStr authUid with
  | none => .error .unauthenticated
  | some _ =>
    match truthyStr selectedTierId with
    | none => .error .invalidArgument
    | some tierId =>
      match paymentTiers tierId with
      | none => .error .invalidArgument
      | some tier =>
        .ok { reference_id := userId, currency_code := tier.currency_code,
              value := tier.value, description := tier.description }

/-- The amount object inside a purchase unit of a webhook resource. -/
structure Amount where
  value : Option String
  currency_code : Option String
  deriving DecidableEq

/-- One purchase unit of a webhook resource. -/
structure PurchaseUnit where
  reference_id : Option String
  custom_id : Option String
  amount : Option Amount
  deriving DecidableEq

/-- The payer object of a webhook resource. -/
structure Payer where
  email_address : Option String
  deriving DecidableEq

/-- The resource object of a PayPal webhook event body. -/
structure Resource where
  id : String
  purchase_units : List PurchaseUnit
  payer : Option Payer
  status : Option String
  deriving DecidableEq

/-- An inbound webhook HTTP request as paypalWebhookHandler reads it. -/
structure WebhookRequest where
  method : String
  event_type : Option String
  resource : Option Resource
  deriving DecidableEq

/-- The fields of a user document that paypalWebhookHandler reads or
writes; none models an absent or undefined field, and salespersonFullName
models the nested access userData?.salesperson?.fullName. -/
structure UserDoc where
  paymentStatus : Option String
  membershipExpiry : Option Int
  lastPaymentDate : Option Int
  paypalOrderId : Option String
  paypalPayerEmail : Option String
  paypalGrossAmount : JsNum
  paypalCurrencyCode : Option String
  salespersonFullName : Option String
  deriving DecidableEq

/-- The fields of a salesperson document in the index.ts schema. -/
structure SpDoc where
  firstName : Option String
  lastName : Option String
  fullName : Option String
  currentMonthEarnings : JsNum
  totalSales : Int
  lastUpdated : Option Int
  deriving DecidableEq

/-- One document of a monthlyPayouts/individualSales subcollection, tagged
with the salesperson it belongs to and its month key. -/
structure SaleRec where
  spName : String
  month : String
  userId : String
  orderId : String
  amount : JsNum
  commission : JsNum
  timestamp : Int
  deriving DecidableEq

/-- The payload of a historicalPayouts document. -/
structure HistData where
  month : String
  earnings : ℚ
  totalCustomers : Int
  archivedAt : Int
  deriving DecidableEq

/-- The Firestore state the index.ts handlers touch: the users collection,
the salespersons collection as the association list a snapshot enumerates,
the individual-sale audit documents, and the historical payout documents
keyed by salesperson and month. -/
structure Store where
  users : String → Option UserDoc
  salespersons : List (String × SpDoc)
  individualSales : List SaleRec
  historicalPayouts : String → String → Option HistData

/-- The first value stored under a key in a salespersons snapshot. -/
def spLookup : List (String × SpDoc) → String → Option SpDoc
  | [], _ => none
  | e :: rest, k => if e.1 = k then some e.2 else spLookup rest k

/-- A transaction.update or batch.update on an existing salesperson
document: every entry under the key is replaced by the new document. -/
def spReplace (m : List (String × SpDoc)) (k : String) (v : SpDoc) :
    List (String × SpDoc) :=
  m.map (fun e => if e.1 = k then (k, v) else e)

/-- The commission rate hardcoded in paypalWebhookHandler (index.ts): 20%. -/
def commissionRate : ℚ := 1 / 5

/-- The body of the Firestore transaction in paypalWebhookHandler
(index.ts lines 152-218), with Date.now() = now, the YYYY-MM string of the
current date = month, and serverTimestamp() = now.  The early return on a
missing user document leaves the store untouched. -/
def txBody (now : Int) (month : String) (orderId : String) (userId : String)
    (payerEmail : Option String) (grossAmount : JsNum) (currencyCode : Option String)
    (store : Store) : Except String Store :=
  match store.users userId with
  | none => .ok store
  | some userDoc =>
    let newExpiryDate : Int := now + 14 * 24 * 60 * 60 * 1000
    let userDoc1 : UserDoc :=
      { userDoc with
        paymentStatus := some "paid"
        membershipExpiry := some newExpiryDate
        lastPaymentDate := some now
        paypalOrderId := some orderId
        paypalPayerEmail := payerEmail
        paypalGrossAmount := grossAmount
        paypalCurrencyCode := currencyCode }
    let s1 : Store :=
      { store with users := fun k => if k = userId then some userDoc1 else store.users k }
    match truthyStr userDoc.salespersonFullName with
    | none => .ok s1
    | some spName =>
      let commissionEarned := jnMul grossAmount (some commissionRate)
      let s2 : Store :=
        match spLookup s1.salespersons spName with
        | some sp =>
          let sp1 : SpDoc :=
            { sp with
              currentMonthEarnings := jnAdd sp.currentMonthEarnings commissionEarned
              totalSales := sp.totalSales + 1
              lastUpdated := some now }
          { s1 with salespersons := spReplace s1.salespersons spName sp1 }
        | none =>
          let sp1 : SpDoc :=
            { firstName := truthyStr ((spName.splitOn " ").get? 0)
              lastName := truthyStr ((spName.splitOn " ").get? 1)
              fullName := some spName
              currentMonthEarnings := commissionEarned
              totalSales := 1
              lastUpdated := some now }
          { s1 with salespersons := s1.salespersons ++ [(spName, sp1)] }
      let saleRec : SaleRec :=
        { spName := spName, month := month, userId := userId, orderId := orderId,
          amount := grossAmount, commission := commissionEarned, timestamp := now }
      .ok { s2 with individualSales := s2.individualSales ++ [saleRec] }

/-- Modelled from the spec: the document store's runTransaction primitive
executes the body as a single atomic unit and is all-or-nothing — when the
body raises, none of its writes are applied and the error propagates to
the caller.  The store SDK itself is not part of this repository's
sources; only this contract is relied upon. -/
def runTransaction (body : Store → Except String Store) (s : Store) :
    Store × Option String :=
  match body s with
  | .ok s1 => (s1, none)
  | .error e => (s, some e)

/-- The user id a webhook resource carries (index.ts line 138):
reference_id of the first purchase unit, falling back to custom_id under
JavaScript truthiness. -/
def resourceUserId (resource : Resource) : Option String :=
  jsOrStr ((resource.purchase_units.get? 0).bind PurchaseUnit.reference_id)
    ((resource.purchase_units.get? 0).bind PurchaseUnit.custom_id)

/-- The payer email of a webhook resource (index.ts line 139). -/
def resourcePayerEmail (resource : Resource) : Option String :=
  resource.payer.bind Payer.email_address

/-- The parsed gross amount of a webhook resource (index.ts line 140):
parseFloat of the amount value, with string default "0". -/
def resourceGrossAmount (resource : Resource) : JsNum :=
  parseFloatQ (jsOrStrD (((resource.purchase_units.get? 0).bind PurchaseUnit.amount).bind Amount.value) "0")

/-- The currency code of a webhook resource (index.ts line 141). -/
def resourceCurrency (resource : Resource) : Option String :=
  ((resource.purchase_units.get? 0).bind PurchaseUnit.amount).bind Amount.currency_code

/-- Models paypalWebhookHandler from index.ts: method check, event-type
dispatch, field extraction from the resource, the guarded Firestore
transaction, and the HTTP response status (200, 405 or 500).  Accessing
resource.id when the body carries no resource throws, is caught by the
surrounding try, and yields a 500 response with the store unchanged. -/
def paypalWebhookHandler (now : Int) (month : String) (req : WebhookRequest)
    (store : Store) : Nat × Store :=
  if req.method ≠ "POST" then (405, store)
  else if req.event_type = some "CHECKOUT.ORDER.COMPLETED"
      ∨ req.event_type = some "CHECKOUT.ORDER.APPROVED"
      ∨ req.event_type = some "PAYMENT.CAPTURE.COMPLETED" then
    match req.resource with
    | none => (500, store)
    | some resource =>
      match truthyStr (resourceUserId resource) with
      | some userId =>
        if resource.status = some "COMPLETED" ∨ resource.status = some "APPROVED" then
          match runTransaction (txBody now month resource.id userId
              (resourcePayerEmail resource) (resourceGrossAmount resource)
              (resourceCurrency resource)) store with
          | (s1, none) => (200, s1)
          | (_, some _) => (500, store)
        else (200, store)
      | none => (200, store)
  else if req.event_type = some "PAYMENT.CAPTURE.DENIED"
      ∨ req.event_type = some "BILLING.SUBSCRIPTION.CANCELLED"
      ∨ req.event_type = some "BILLING.SUBSCRIPTION.EXPIRED" then
    match req.resource with
    | none => (500, store)
    | some _ => (200, store)
  else (200, store)

/-- A single iteration of the snapshot loop in resetMonthlyEarnings
(index.ts lines 257-280): read the snapshot document, archive the month
into historicalPayouts when either counter is nonzero, then reset both
counters on the live document. -/
def rolloverStep (now : Int) (month : String) (acc : Store) (e : String × SpDoc) : Store :=
  let currentMonthEarnings : ℚ :=
    match e.2.currentMonthEarnings with
    | some q => q
    | none => 0
  let totalSales : Int := e.2.totalSales
  let histDoc : HistData :=
    { month := month, earnings := currentMonthEarnings,
      totalCustomers := totalSales, archivedAt := now }
  let acc1 : Store :=
    if currentMonthEarnings > 0 ∨ totalSales > 0 then
      { acc with historicalPayouts := fun sp m =>
          if sp = e.1 ∧ m = month then some histDoc else acc.historicalPayouts sp m }
    else acc
  let spReset : SpDoc := { e.2 with currentMonthEarnings := some 0, totalSales := 0 }
  { acc1 with salespersons := spReplace acc1.salespersons e.1 spReset }

/-- Models resetMonthlyEarnings from index.ts: iterate the salespersons
snapshot, archive nonzero months into historicalPayouts (set with merge,
which here writes every field), and reset the current-month counters; the
batch of writes commits at the end. -/
def resetMonthlyEarnings (now : Int) (month : String) (store : Store) : Store :=
  store.salespersons.foldl (rolloverStep now month) store

/-- The fields of an index.js-schema salesperson document that the
reporting callables read. -/
structure JsSpDoc where
  monthlyCommission : List (String × ℚ)
  yearlyCommission : List (String × ℚ)
  deriving DecidableEq

/-- One document of a sales subcollection in the index.js schema, tagged
with the salesperson it belongs to. -/
structure JsSaleDoc where
  spId : String
  saleMonth : Option String
  saleYear : Option String
  deriving DecidableEq

/-- The Firestore state the index.js reporting callables read. -/
structure ReportStore where
  salespersons : List (String × JsSpDoc)
  sales : List JsSaleDoc

/-- Lookup in a string-keyed map field of a document. -/
def mapLookup : List (String × ℚ) → String → Option ℚ
  | [], _ => none
  | e :: rest, k => if e.1 = k then some e.2 else mapLookup rest k

/-- The first value stored under a key in an index.js salespersons
snapshot. -/
def jsSpLookup : List (String × JsSpDoc) → String → Option JsSpDoc
  | [], _ => none
  | e :: rest, k => if e.1 = k then some e.2 else jsSpLookup rest k

/-- The result object of the reporting callables. -/
structure ReportResult where
  totalCommission : ℚ
  sales : List JsSaleDoc
  message : Option String
  deriving DecidableEq

/-- Models getMonthlySalesReport from index.js: authentication check,
argument check, then the salesperson read — an absent document returns a
zero-valued result; otherwise the stored monthly total and the matching
sale documents are returned. -/
def getMonthlySalesReport (authUid : Option String)
    (salespersonId yearMonth : Option String) (store : ReportStore) :
    Except HttpsErrorCode ReportResult :=
  match truthyStr authUid with
  | none => .error .unauthenticated
  | some _ =>
    match truthyStr salespersonId, truthyStr yearMonth with
    | some spId, some ym =>
      match jsSpLookup store.salespersons spId with
      | none => .ok { totalCommission := 0, sales := [],
                      message := some "Salesperson not found or no sales data." }
      | some doc =>
        let mc := (mapLookup doc.monthlyCommission ym).getD 0
        let sales := store.sales.filter (fun s => decide (s.spId = spId ∧ s.saleMonth = some ym))
        .ok { totalCommission := mc, sales := sales, message := none }
    | _, _ => .error .invalidArgument

/-- Models getYearlySalesReport from index.js: authentication check,
argument check, then the salesperson read — an absent document returns a
zero-valued result; otherwise the stored yearly total and the matching
sale documents are returned. -/
def getYearlySalesReport (authUid : Option String)
    (salespersonId year : Option String) (store : ReportStore) :
    Except HttpsErrorCode ReportResult :=
  match truthyStr authUid with
  | none => .error .unauthenticated
  | some _ =>
    match truthyStr salespersonId, truthyStr year with
    | some spId, some y =>
      match jsSpLookup store.salespersons spId with
      | none => .ok { totalCommission := 0, sales := [],
                      message := some "Salesperson not found or no sales data." }
      | some doc =>
        let yc := (mapLookup doc.yearlyCommission y).getD 0
        let sales := store.sales.filter (fun s => decide (s.spId = spId ∧ s.saleYear = some y))
        .ok { totalCommission := yc, sales := sales, message := none }
    | _, _ => .error .invalidArgument

/-- Truthiness of a nonempty string. -/
theorem truthyStr_of_ne {s : String} (h : s ≠ "") : truthyStr (some s) = some s := by
  simp [truthyStr, h]

/-- Replacing a present key and then looking it up yields the new value. -/
theorem spLookup_spReplace_self {m : List (String × SpDoc)} {k : String} {v0 v : SpDoc}
    (h : spLookup m k = some v0) : spLookup (spReplace m k v) k = some v := by
  induction m with
  | nil => simp [spLookup] at h
  | cons e rest ih =>
    by_cases he : e.1 = k
    · simp [spLookup, spReplace, he]
    · simp only [spLookup, spReplace, List.map_cons, if_neg he] at *
      exact ih h

/-- Replacing one key leaves lookups of other keys unchanged. -/
theorem spLookup_spReplace_ne {m : List (String × SpDoc)} {k k' : String} {v : SpDoc}
    (h : k ≠ k') : spLookup (spReplace m k' v) k = spLookup m k := by
  induction m with
  | nil => simp [spReplace, spLookup]
  | cons e rest ih =>
    by_cases he : e.1 = k'
    · subst he
      simp only [spReplace, List.map_cons, if_pos rfl, spLookup]
      rw [if_neg (fun hk => h hk.symm), if_neg (fun hk => h hk.symm)]
      exact ih
    · simp only [spReplace, List.map_cons, if_neg he, spLookup]
      by_cases hk : e.1 = k
      · simp [hk]
      · simp only [if_neg hk]
        exact ih

/-- Under the happy-path request hypotheses, paypalWebhookHandler reduces to
the guarded transaction over the extracted fields. -/
theorem paypalWebhookHandler_run (now : Int) (month : String) (req : WebhookRequest)
    (store : Store) (resource : Resource) (uid : String)
    (hm : req.method = "POST")
    (he : req.event_type = some "CHECKOUT.ORDER.COMPLETED"
      ∨ req.event_type = some "CHECKOUT.ORDER.APPROVED"
      ∨ req.event_type = some "PAYMENT.CAPTURE.COMPLETED")
    (hr : req.resource = some resource)
    (hid : truthyStr (resourceUserId resource) = some uid)
    (hs : resource.status = some "COMPLETED" ∨ resource.status = some "APPROVED") :
    paypalWebhookHandler now month req store =
      match runTransaction (txBody now month resource.id uid
          (resourcePayerEmail resource) (resourceGrossAmount resource)
          (resourceCurrency resource)) store with
      | (s1, none) => (200, s1)
      | (_, some _) => (500, store) := by
  rcases he with h | h | h <;> rcases hs with h2 | h2 <;>
    simp [paypalWebhookHandler, hm, hr, h, h2, hid]

/-- The transaction body with an existing user, a linked salesperson whose
document exists, and a numeric gross amount: the full output state. -/
theorem txBody_full (now : Int) (month orderId uid : String) (pe : Option String)
    (A : ℚ) (cc : Option String) (store : Store) (u : UserDoc) (spName : String) (sp : SpDoc)
    (hu : store.users uid = some u)
    (hsp : u.salespersonFullName = some spName) (hne : spName ≠ "")
    (hspdoc : spLookup store.salespersons spName = some sp) :
    txBody now month orderId uid pe (some A) cc store = .ok
      { users := fun k => if k = uid then
            some { u with
                   paymentStatus := some "paid"
                   membershipExpiry := some (now + 14 * 24 * 60 * 60 * 1000)
                   lastPaymentDate := some now
                   paypalOrderId := some orderId
                   paypalPayerEmail := pe
                   paypalGrossAmount := some A
                   paypalCurrencyCode := cc }
          else store.users k
        salespersons := spReplace store.salespersons spName
          { sp with
            currentMonthEarnings := jnAdd sp.currentMonthEarnings (some (A * commissionRate))
            totalSales := sp.totalSales + 1
            lastUpdated := some now }
        individualSales := store.individualSales ++
          [{ spName := spName, month := month, userId := uid, orderId := orderId,
             amount := some A, commission := some (A * commissionRate), timestamp := now }]
        historicalPayouts := store.historicalPayouts } := by
  unfold txBody
  rw [hu]
  simp [hsp, truthyStr_of_ne hne, hspdoc, jnMul, jnAdd]

/-- The transaction body never raises in the pure model. -/
theorem txBody_ok (now : Int) (month orderId uid : String) (pe : Option String)
    (g : JsNum) (cc : Option String) (store : Store) :
    ∃ s1 : Store, txBody now month orderId uid pe g cc store = .ok s1 := by
  unfold txBody
  split
  · exact ⟨_, rfl⟩
  · dsimp only
    split
    · exact ⟨_, rfl⟩
    · split <;> exact ⟨_, rfl⟩

/-- Whenever the transaction body runs against an existing user, the output
user collection holds the paid user document under that id, whatever the
salesperson situation is. -/
theorem txBody_users (now : Int) (month orderId uid : String) (pe : Option String)
    (g : JsNum) (cc : Option String) (store : Store) (u : UserDoc) (s1 : Store)
    (hu : store.users uid = some u)
    (hok : txBody now month orderId uid pe g cc store = .ok s1) :
    s1.users = fun k => if k = uid then
        some { u with
               paymentStatus := some "paid"
               membershipExpiry := some (now + 14 * 24 * 60 * 60 * 1000)
               lastPaymentDate := some now
               paypalOrderId := some orderId
               paypalPayerEmail := pe
               paypalGrossAmount := g
               paypalCurrencyCode := cc }
      else store.users k := by
  unfold txBody at hok
  simp only [hu] at hok
  split at hok
  · injection hok with h
    subst h
    rfl
  · split at hok <;>
      (injection hok with h; subst h; rfl)

/-- C7: for every tier id present in the static price table, Order Intake
produces a processor request whose amount value and currency exactly match
that tier's price-table entry; in particular tier "sadc" maps to price
"100.00" in currency "USD". -/
theorem C7_order_intake_price_table (a uid tierId : String) (tier : Tier)
    (ha : a ≠ "") (ht : paymentTiers tierId = some tier) :
    (∃ req : OrderRequest, createPayPalOrder (some a) (some tierId) uid = .ok req ∧
      req.currency_code = tier.currency_code ∧ req.value = tier.value) ∧
    paymentTiers "sadc" = some ⟨"USD", "100.00", "SADC Citizens Membership"⟩ := by
  constructor
  · have htne : tierId ≠ "" := by
      intro h0
      subst h0
      simp [paymentTiers] at ht
    refine ⟨⟨uid, tier.currency_code, tier.value, tier.description⟩, ?_, rfl, rfl⟩
    simp [createPayPalOrder, truthyStr_of_ne ha, truthyStr_of_ne htne, ht]
  · rfl

/-- Witness for C7 at the concrete tier "sadc". -/
theorem C7_witness :
    ("admin" ≠ "" ∧ paymentTiers "sadc" = some ⟨"USD", "100.00", "SADC Citizens Membership"⟩) ∧
    ((∃ req : OrderRequest, createPayPalOrder (some "admin") (some "sadc") "u1" = .ok req ∧
        req.currency_code = "USD" ∧ req.value = "100.00") ∧
      paymentTiers "sadc" = some ⟨"USD", "100.00", "SADC Citizens Membership"⟩) :=
  ⟨⟨by decide, rfl⟩,
    C7_order_intake_price_table "admin" "u1" "sadc" ⟨"USD", "100.00", "SADC Citizens Membership"⟩
      (by decide) rfl⟩

/-- C8: a tier id absent from the static price table makes Order Intake
fail with invalid-argument, and no processor request is produced. -/
theorem C8_unknown_tier_invalid_argument (a uid tierId : String)
    (ha : a ≠ "") (ht : paymentTiers tierId = none) :
    createPayPalOrder (some a) (some tierId) uid = .error .invalidArgument ∧
    ∀ req : OrderRequest, createPayPalOrder (some a) (some tierId) uid ≠ .ok req := by
  have hmain : createPayPalOrder (some a) (some tierId) uid = .error .invalidArgument := by
    by_cases h0 : tierId = ""
    · subst h0
      simp [createPayPalOrder, truthyStr, ha]
    · simp [createPayPalOrder, truthyStr_of_ne ha, truthyStr_of_ne h0, ht]
  refine ⟨hmain, fun req h => ?_⟩
  rw [hmain] at h
  exact Except.noConfusion h

/-- Witness for C8 at the concrete unknown tier "premium". -/
theorem C8_witness :
    ("admin" ≠ "" ∧ paymentTiers "premium" = none) ∧
    (createPayPalOrder (some "admin") (some "premium") "u1" = .error .invalidArgument ∧
      ∀ req : OrderRequest, createPayPalOrder (some "admin") (some "premium") "u1" ≠ .ok req) :=
  ⟨⟨by decide, rfl⟩, C8_unknown_tier_invalid_argument "admin" "u1" "premium" (by decide) rfl⟩

/-- C9: an authenticated reporting call naming a salesperson id with no
stored record returns zero total commission and an empty sale list from
both reporting callables, and raises no error. -/
theorem C9_absent_salesperson_zero_report (a spId key : String) (store : ReportStore)
    (ha : a ≠ "") (hs : spId ≠ "") (hk : key ≠ "")
    (habs : jsSpLookup store.salespersons spId = none) :
    (∃ r : ReportResult, getMonthlySalesReport (some a) (some spId) (some key) store = .ok r ∧
      r.totalCommission = 0 ∧ r.sales = []) ∧
    (∃ r : ReportResult, getYearlySalesReport (some a) (some spId) (some key) store = .ok r ∧
      r.totalCommission = 0 ∧ r.sales = []) := by
  constructor
  · refine ⟨⟨0, [], some "Salesperson not found or no sales data."⟩, ?_, rfl, rfl⟩
    simp [getMonthlySalesReport, truthyStr_of_ne ha, truthyStr_of_ne hs,
      truthyStr_of_ne hk, habs]
  · refine ⟨⟨0, [], some "Salesperson not found or no sales data."⟩, ?_, rfl, rfl⟩
    simp [getYearlySalesReport, truthyStr_of_ne ha, truthyStr_of_ne hs,
      truthyStr_of_ne hk, habs]

/-- Witness for C9 on a store holding a single unrelated salesperson. -/
theorem C9_witness :
    ("admin" ≠ "" ∧ "ghost" ≠ "" ∧ "2025-01" ≠ "" ∧
      jsSpLookup (ReportStore.mk [("art", ⟨[("2025-01", 5)], [("2025", 5)]⟩)] []).salespersons "ghost" = none) ∧
    ((∃ r : ReportResult,
        getMonthlySalesReport (some "admin") (some "ghost") (some "2025-01")
          (ReportStore.mk [("art", ⟨[("2025-01", 5)], [("2025", 5)]⟩)] []) = .ok r ∧
        r.totalCommission = 0 ∧ r.sales = []) ∧
      (∃ r : ReportResult,
        getYearlySalesReport (some "admin") (some "ghost") (some "2025-01")
          (ReportStore.mk [("art", ⟨[("2025-01", 5)], [("2025", 5)]⟩)] []) = .ok r ∧
        r.totalCommission = 0 ∧ r.sales = [])) :=
  ⟨⟨by decide, by decide, by decide, by decide⟩,
    C9_absent_salesperson_zero_report "admin" "ghost" "2025-01"
      (ReportStore.mk [("art", ⟨[("2025-01", 5)], [("2025", 5)]⟩)] [])
      (by decide) (by decide) (by decide) (by decide)⟩

/-- A sample user document linked to salesperson "John Doe". -/
def wUser : UserDoc :=
  { paymentStatus := none, membershipExpiry := some 999, lastPaymentDate := none,
    paypalOrderId := none, paypalPayerEmail := none, paypalGrossAmount := none,
    paypalCurrencyCode := none, salespersonFullName := some "John Doe" }

/-- A sample salesperson document with prior earnings 7 and 3 sales. -/
def wSp : SpDoc :=
  { firstName := some "John", lastName := some "Doe", fullName := some "John Doe",
    currentMonthEarnings := some 7, totalSales := 3, lastUpdated := none }

/-- A sample store holding the sample user and salesperson. -/
def wStore : Store :=
  { users := fun k => if k = "u1" then some wUser else none
    salespersons := [("John Doe", wSp)]
    individualSales := []
    historicalPayouts := fun _ _ => none }

/-- A sample completed-payment webhook resource of amount "100.00". -/
def wResource : Resource :=
  { id := "ORD1"
    purchase_units := [{ reference_id := some "u1", custom_id := none,
                         amount := some { value := some "100.00", currency_code := some "USD" } }]
    payer := some { email_address := some "p@x.y" }
    status := some "COMPLETED" }

/-- A sample webhook POST request carrying the sample resource. -/
def wReq : WebhookRequest := ⟨"POST", some "PAYMENT.CAPTURE.COMPLETED", some wResource⟩

/-- The sample resource's amount string "100.00" parses to 100. -/
theorem wGross_parse : resourceGrossAmount wResource = some 100 := by
  have h1 : resourceGrossAmount wResource =
      some ((digitsToNat ['1', '0', '0'] : ℚ) +
        (digitsToNat ['0', '0'] : ℚ) / (10 : ℚ) ^ (2 : ℕ)) := rfl
  have h2 : digitsToNat ['1', '0', '0'] = 100 := rfl
  have h3 : digitsToNat ['0', '0'] = 0 := rfl
  rw [h1, h2, h3]
  norm_num

/-- C1: a completed-payment webhook for an existing user whose record links
an existing salesperson with prior cumulative commission C adds A × r to
that commission, increments the sale count by exactly one, and appends
exactly one individual-sale audit record whose commission field is A × r. -/
theorem C1_commission_accrual
    (now : Int) (month : String) (req : WebhookRequest) (store : Store)
    (resource : Resource) (uid spName : String) (u : UserDoc) (sp : SpDoc) (C A : ℚ)
    (hm : req.method = "POST")
    (he : req.event_type = some "CHECKOUT.ORDER.COMPLETED"
      ∨ req.event_type = some "CHECKOUT.ORDER.APPROVED"
      ∨ req.event_type = some "PAYMENT.CAPTURE.COMPLETED")
    (hr : req.resource = some resource)
    (hid : truthyStr (resourceUserId resource) = some uid)
    (hst : resource.status = some "COMPLETED" ∨ resource.status = some "APPROVED")
    (hg : resourceGrossAmount resource = some A)
    (hu : store.users uid = some u)
    (hsp : u.salespersonFullName = some spName) (hne : spName ≠ "")
    (hspdoc : spLookup store.salespersons spName = some sp)
    (hC : sp.currentMonthEarnings = some C) :
    spLookup (paypalWebhookHandler now month req store).2.salespersons spName =
      some { sp with
             currentMonthEarnings := some (C + A * commissionRate)
             totalSales := sp.totalSales + 1
             lastUpdated := some now } ∧
    (paypalWebhookHandler now month req store).2.individualSales =
      store.individualSales ++
        [{ spName := spName, month := month, userId := uid, orderId := resource.id,
           amount := some A, commission := some (A * commissionRate), timestamp := now }] := by
  have hrun := paypalWebhookHandler_run now month req store resource uid hm he hr hid hst
  rw [hg] at hrun
  have htx := txBody_full now month resource.id uid (resourcePayerEmail resource) A
    (resourceCurrency resource) store u spName sp hu hsp hne hspdoc
  simp only [runTransaction, htx] at hrun
  rw [hrun]
  constructor
  · simp [spLookup_spReplace_self hspdoc, hC, jnAdd]
  · rfl

/-- Witness for C1 on the sample store and request. -/
theorem C1_witness :
    (wStore.users "u1" = some wUser ∧ wUser.salespersonFullName = some "John Doe" ∧
      spLookup wStore.salespersons "John Doe" = some wSp ∧
      wSp.currentMonthEarnings = some 7 ∧ resourceGrossAmount wResource = some 100) ∧
    (spLookup (paypalWebhookHandler 1000 "2026-10" wReq wStore).2.salespersons "John Doe" =
      some { wSp with
             currentMonthEarnings := some (7 + 100 * commissionRate)
             totalSales := wSp.totalSales + 1
             lastUpdated := some 1000 } ∧
    (paypalWebhookHandler 1000 "2026-10" wReq wStore).2.individualSales =
      wStore.individualSales ++
        [{ spName := "John Doe", month := "2026-10", userId := "u1", orderId := wResource.id,
           amount := some 100, commission := some (100 * commissionRate), timestamp := 1000 }]) :=
  ⟨⟨by decide, rfl, by decide, rfl, wGross_parse⟩,
    C1_commission_accrual 1000 "2026-10" wReq wStore wResource "u1" "John Doe" wUser wSp 7 100
      rfl (Or.inr (Or.inr rfl)) rfl (by decide) (Or.inl rfl) wGross_parse (by decide) rfl
      (by decide) (by decide) rfl⟩

/-- C2: under a completed-payment notification, the store the handler
leaves behind is exactly the store the single runTransaction call over the
transaction body produces (the user write, the salesperson write and the
sale-record write all happen inside it), and runTransaction applies none
of the body's writes when the body raises. -/
theorem C2_single_transaction_all_or_nothing
    (now : Int) (month : String) (req : WebhookRequest) (store : Store)
    (resource : Resource) (uid : String)
    (hm : req.method = "POST")
    (he : req.event_type = some "CHECKOUT.ORDER.COMPLETED"
      ∨ req.event_type = some "CHECKOUT.ORDER.APPROVED"
      ∨ req.event_type = some "PAYMENT.CAPTURE.COMPLETED")
    (hr : req.resource = some resource)
    (hid : truthyStr (resourceUserId resource) = some uid)
    (hst : resource.status = some "COMPLETED" ∨ resource.status = some "APPROVED") :
    (paypalWebhookHandler now month req store).2 =
      (runTransaction (txBody now month resource.id uid (resourcePayerEmail resource)
        (resourceGrossAmount resource) (resourceCurrency resource)) store).1 ∧
    ∀ (body : Store → Except String Store) (s : Store) (e : String),
      body s = .error e → (runTransaction body s).1 = s := by
  constructor
  · rw [paypalWebhookHandler_run now month req store resource uid hm he hr hid hst]
    cases htx : txBody now month resource.id uid (resourcePayerEmail resource)
        (resourceGrossAmount resource) (resourceCurrency resource) store with
    | ok s1 => simp [runTransaction, htx]
    | error e => simp [runTransaction, htx]
  · intro body s e hb
    simp [runTransaction, hb]

/-- Witness for C2 on the sample store and request. -/
theorem C2_witness :
    (wReq.method = "POST" ∧ wResource.status = some "COMPLETED") ∧
    ((paypalWebhookHandler 1000 "2026-10" wReq wStore).2 =
      (runTransaction (txBody 1000 "2026-10" wResource.id "u1" (resourcePayerEmail wResource)
        (resourceGrossAmount wResource) (resourceCurrency wResource)) wStore).1 ∧
    ∀ (body : Store → Except String Store) (s : Store) (e : String),
      body s = .error e → (runTransaction body s).1 = s) :=
  ⟨⟨rfl, rfl⟩,
    C2_single_transaction_all_or_nothing 1000 "2026-10" wReq wStore wResource "u1"
      rfl (Or.inr (Or.inr rfl)) rfl (by decide) (Or.inl rfl)⟩

/-- C3: a successfully reconciled payment sets the user's membership
expiry to exactly now + 14 days, whatever the prior user document (and in
particular whatever its previous expiry) held. -/
theorem C3_expiry_reset
    (now : Int) (month : String) (req : WebhookRequest) (store : Store)
    (resource : Resource) (uid : String) (u : UserDoc)
    (hm : req.method = "POST")
    (he : req.event_type = some "CHECKOUT.ORDER.COMPLETED"
      ∨ req.event_type = some "CHECKOUT.ORDER.APPROVED"
      ∨ req.event_type = some "PAYMENT.CAPTURE.COMPLETED")
    (hr : req.resource = some resource)
    (hid : truthyStr (resourceUserId resource) = some uid)
    (hst : resource.status = some "COMPLETED" ∨ resource.status = some "APPROVED")
    (hu : store.users uid = some u) :
    ∃ u' : UserDoc, (paypalWebhookHandler now month req store).2.users uid = some u' ∧
      u'.membershipExpiry = some (now + 14 * 24 * 60 * 60 * 1000) := by
  have hrun := paypalWebhookHandler_run now month req store resource uid hm he hr hid hst
  obtain ⟨s1, hok⟩ := txBody_ok now month resource.id uid (resourcePayerEmail resource)
    (resourceGrossAmount resource) (resourceCurrency resource) store
  have husers := txBody_users now month resource.id uid (resourcePayerEmail resource)
    (resourceGrossAmount resource) (resourceCurrency resource) store u s1 hu hok
  simp only [runTransaction, hok] at hrun
  rw [hrun]
  dsimp only
  rw [husers]
  refine ⟨{ u with
            paymentStatus := some "paid"
            membershipExpiry := some (now + 14 * 24 * 60 * 60 * 1000)
            lastPaymentDate := some now
            paypalOrderId := some resource.id
            paypalPayerEmail := resourcePayerEmail resource
            paypalGrossAmount := resourceGrossAmount resource
            paypalCurrencyCode := resourceCurrency resource }, by simp, rfl⟩

/-- Witness for C3 on the sample store, whose user held expiry 999. -/
theorem C3_witness :
    (wStore.users "u1" = some wUser ∧ wUser.membershipExpiry = some 999) ∧
    (∃ u' : UserDoc, (paypalWebhookHandler 1000 "2026-10" wReq wStore).2.users "u1" = some u' ∧
      u'.membershipExpiry = some (1000 + 14 * 24 * 60 * 60 * 1000)) :=
  ⟨⟨by decide, rfl⟩,
    C3_expiry_reset 1000 "2026-10" wReq wStore wResource "u1" wUser
      rfl (Or.inr (Or.inr rfl)) rfl (by decide) (Or.inl rfl) (by decide)⟩

/-- C4: a completed-payment notification whose referenced user is absent
from the store performs no write at all — the store is returned unchanged
— and the response is 200, not a retry-triggering error. -/
theorem C4_absent_user_soft_noop
    (now : Int) (month : String) (req : WebhookRequest) (store : Store)
    (resource : Resource) (uid : String)
    (hm : req.method = "POST")
    (he : req.event_type = some "CHECKOUT.ORDER.COMPLETED"
      ∨ req.event_type = some "CHECKOUT.ORDER.APPROVED"
      ∨ req.event_type = some "PAYMENT.CAPTURE.COMPLETED")
    (hr : req.resource = some resource)
    (hid : truthyStr (resourceUserId resource) = some uid)
    (hst : resource.status = some "COMPLETED" ∨ resource.status = some "APPROVED")
    (hu : store.users uid = none) :
    paypalWebhookHandler now month req store = (200, store) := by
  have hrun := paypalWebhookHandler_run now month req store resource uid hm he hr hid hst
  have htx : txBody now month resource.id uid (resourcePayerEmail resource)
      (resourceGrossAmount resource) (resourceCurrency resource) store = .ok store := by
    unfold txBody
    rw [hu]
  simp only [runTransaction, htx] at hrun
  exact hrun

/-- A sample store that holds no user documents at all. -/
def w4Store : Store :=
  { users := fun _ => none, salespersons := [], individualSales := [],
    historicalPayouts := fun _ _ => none }

/-- Witness for C4 on the empty store. -/
theorem C4_witness :
    w4Store.users "u1" = none ∧
    paypalWebhookHandler 1000 "2026-10" wReq w4Store = (200, w4Store) :=
  ⟨rfl,
    C4_absent_user_soft_noop 1000 "2026-10" wReq w4Store wResource "u1"
      rfl (Or.inr (Or.inr rfl)) rfl (by decide) (Or.inl rfl) rfl⟩

/-- C10: a recognized completed/approved notification with a present user
reference but an absent amount value field parses the paid amount as 0:
the user is still marked paid with a fresh 14-day expiry and gross amount
0, and the linked salesperson gains a sale record with amount 0 and
commission 0 while the sale count still increments by 1. -/
theorem C10_missing_amount_parses_zero
    (now : Int) (month : String) (req : WebhookRequest) (store : Store)
    (resource : Resource) (uid spName : String) (u : UserDoc) (sp : SpDoc) (C : ℚ)
    (hm : req.method = "POST")
    (he : req.event_type = some "CHECKOUT.ORDER.COMPLETED"
      ∨ req.event_type = some "CHECKOUT.ORDER.APPROVED"
      ∨ req.event_type = some "PAYMENT.CAPTURE.COMPLETED")
    (hr : req.resource = some resource)
    (hid : truthyStr (resourceUserId resource) = some uid)
    (hst : resource.status = some "COMPLETED" ∨ resource.status = some "APPROVED")
    (hval : ((resource.purchase_units.get? 0).bind PurchaseUnit.amount).bind Amount.value = none)
    (hu : store.users uid = some u)
    (hsp : u.salespersonFullName = some spName) (hne : spName ≠ "")
    (hspdoc : spLookup store.salespersons spName = some sp)
    (hC : sp.currentMonthEarnings = some C) :
    (paypalWebhookHandler now month req store).2.users uid =
      some { u with
             paymentStatus := some "paid"
             membershipExpiry := some (now + 14 * 24 * 60 * 60 * 1000)
             lastPaymentDate := some now
             paypalOrderId := some resource.id
             paypalPayerEmail := resourcePayerEmail resource
             paypalGrossAmount := some 0
             paypalCurrencyCode := resourceCurrency resource } ∧
    spLookup (paypalWebhookHandler now month req store).2.salespersons spName =
      some { sp with
             currentMonthEarnings := some C
             totalSales := sp.totalSales + 1
             lastUpdated := some now } ∧
    (paypalWebhookHandler now month req store).2.individualSales =
      store.individualSales ++
        [{ spName := spName, month := month, userId := uid, orderId := resource.id,
           amount := some 0, commission := some 0, timestamp := now }] := by
  have hg : resourceGrossAmount resource = some 0 := by
    have h1 : resourceGrossAmount resource =
        parseFloatQ (jsOrStrD (((resource.purchase_units.get? 0).bind PurchaseUnit.amount).bind Amount.value) "0") := rfl
    rw [h1, hval]
    have h2 : jsOrStrD none "0" = "0" := rfl
    rw [h2]
    have h3 : parseFloatQ "0" = some ((digitsToNat ['0'] : ℕ) : ℚ) := rfl
    have h4 : digitsToNat ['0'] = 0 := rfl
    rw [h3, h4]
    norm_num
  have hrun := paypalWebhookHandler_run now month req store resource uid hm he hr hid hst
  rw [hg] at hrun
  have htx := txBody_full now month resource.id uid (resourcePayerEmail resource) 0
    (resourceCurrency resource) store u spName sp hu hsp hne hspdoc
  simp only [runTransaction, htx] at hrun
  rw [hrun]
  refine ⟨by simp, ?_, ?_⟩
  · simp [spLookup_spReplace_self hspdoc, hC, jnAdd]
  · simp

/-- A sample completed resource whose amount value field is absent. -/
def w10Resource : Resource :=
  { id := "ORD2"
    purchase_units := [{ reference_id := some "u1", custom_id := none,
                         amount := some { value := none, currency_code := some "USD" } }]
    payer := some { email_address := some "p@x.y" }
    status := some "APPROVED" }

/-- A sample webhook POST request carrying the amount-less resource. -/
def w10Req : WebhookRequest := ⟨"POST", some "CHECKOUT.ORDER.APPROVED", some w10Resource⟩

/-- Witness for C10 on the amount-less sample request. -/
theorem C10_witness :
    (((w10Resource.purchase_units.get? 0).bind PurchaseUnit.amount).bind Amount.value = none ∧
      wStore.users "u1" = some wUser ∧ spLookup wStore.salespersons "John Doe" = some wSp ∧
      wSp.currentMonthEarnings = some 7) ∧
    ((paypalWebhookHandler 1000 "2026-10" w10Req wStore).2.users "u1" =
      some { wUser with
             paymentStatus := some "paid"
             membershipExpiry := some (1000 + 14 * 24 * 60 * 60 * 1000)
             lastPaymentDate := some 1000
             paypalOrderId := some w10Resource.id
             paypalPayerEmail := resourcePayerEmail w10Resource
             paypalGrossAmount := some 0
             paypalCurrencyCode := resourceCurrency w10Resource } ∧
    spLookup (paypalWebhookHandler 1000 "2026-10" w10Req wStore).2.salespersons "John Doe" =
      some { wSp with
             currentMonthEarnings := some 7
             totalSales := wSp.totalSales + 1
             lastUpdated := some 1000 } ∧
    (paypalWebhookHandler 1000 "2026-10" w10Req wStore).2.individualSales =
      wStore.individualSales ++
        [{ spName := "John Doe", month := "2026-10", userId := "u1", orderId := w10Resource.id,
           amount := some 0, commission := some 0, timestamp := 1000 }]) :=
  ⟨⟨rfl, by decide, by decide, rfl⟩,
    C10_missing_amount_parses_zero 1000 "2026-10" w10Req wStore w10Resource "u1" "John Doe"
      wUser wSp 7 rfl (Or.inr (Or.inl rfl)) rfl (by decide) (Or.inr rfl) rfl (by decide) rfl
      (by decide) (by decide) rfl⟩

/-- C5: delivering the same completed-payment notification twice applies
the commission twice — the salesperson's cumulative commission ends at
C + 2·(A×r), the sale count grows by two, and two sale-audit records with
the same order id exist; no duplicate-order-id guard stops the second
application. -/
theorem C5_redelivery_double_applies
    (now : Int) (month : String) (req : WebhookRequest) (store : Store)
    (resource : Resource) (uid spName : String) (u : UserDoc) (sp : SpDoc) (C A : ℚ)
    (hm : req.method = "POST")
    (he : req.event_type = some "CHECKOUT.ORDER.COMPLETED"
      ∨ req.event_type = some "CHECKOUT.ORDER.APPROVED"
      ∨ req.event_type = some "PAYMENT.CAPTURE.COMPLETED")
    (hr : req.resource = some resource)
    (hid : truthyStr (resourceUserId resource) = some uid)
    (hst : resource.status = some "COMPLETED" ∨ resource.status = some "APPROVED")
    (hg : resourceGrossAmount resource = some A)
    (hu : store.users uid = some u)
    (hsp : u.salespersonFullName = some spName) (hne : spName ≠ "")
    (hspdoc : spLookup store.salespersons spName = some sp)
    (hC : sp.currentMonthEarnings = some C) :
    spLookup (paypalWebhookHandler now month req
        (paypalWebhookHandler now month req store).2).2.salespersons spName =
      some { sp with
             currentMonthEarnings := some (C + 2 * (A * commissionRate))
             totalSales := sp.totalSales + 2
             lastUpdated := some now } ∧
    ((paypalWebhookHandler now month req
        (paypalWebhookHandler now month req store).2).2.individualSales.filter
      (fun r => decide (r.orderId = resource.id))).length =
      (store.individualSales.filter (fun r => decide (r.orderId = resource.id))).length + 2 := by
  have key : ∀ (st : Store) (u' : UserDoc) (sp' : SpDoc),
      st.users uid = some u' → u'.salespersonFullName = some spName →
      spLookup st.salespersons spName = some sp' →
      paypalWebhookHandler now month req st = (200,
        { users := fun k => if k = uid then
              some { u' with
                     paymentStatus := some "paid"
                     membershipExpiry := some (now + 14 * 24 * 60 * 60 * 1000)
                     lastPaymentDate := some now
                     paypalOrderId := some resource.id
                     paypalPayerEmail := resourcePayerEmail resource
                     paypalGrossAmount := some A
                     paypalCurrencyCode := resourceCurrency resource }
            else st.users k
          salespersons := spReplace st.salespersons spName
            { sp' with
              currentMonthEarnings := jnAdd sp'.currentMonthEarnings (some (A * commissionRate))
              totalSales := sp'.totalSales + 1
              lastUpdated := some now }
          individualSales := st.individualSales ++
            [{ spName := spName, month := month, userId := uid, orderId := resource.id,
               amount := some A, commission := some (A * commissionRate), timestamp := now }]
          historicalPayouts := st.historicalPayouts }) := by
    intro st u' sp' hu' hsp' hspdoc'
    have hrun := paypalWebhookHandler_run now month req st resource uid hm he hr hid hst
    rw [hg] at hrun
    have htx := txBody_full now month resource.id uid (resourcePayerEmail resource) A
      (resourceCurrency resource) st u' spName sp' hu' hsp' hne hspdoc'
    simp only [runTransaction, htx] at hrun
    exact hrun
  have hstep2 := key
    { users := fun k => if k = uid then
          some { u with
                 paymentStatus := some "paid"
                 membershipExpiry := some (now + 14 * 24 * 60 * 60 * 1000)
                 lastPaymentDate := some now
                 paypalOrderId := some resource.id
                 paypalPayerEmail := resourcePayerEmail resource
                 paypalGrossAmount := some A
                 paypalCurrencyCode := resourceCurrency resource }
        else store.users k
      salespersons := spReplace store.salespersons spName
        { sp with
          currentMonthEarnings := jnAdd sp.currentMonthEarnings (some (A * commissionRate))
          totalSales := sp.totalSales + 1
          lastUpdated := some now }
      individualSales := store.individualSales ++
        [{ spName := spName, month := month, userId := uid, orderId := resource.id,
           amount := some A, commission := some (A * commissionRate), timestamp := now }]
      historicalPayouts := store.historicalPayouts }
    { u with
      paymentStatus := some "paid"
      membershipExpiry := some (now + 14 * 24 * 60 * 60 * 1000)
      lastPaymentDate := some now
      paypalOrderId := some resource.id
      paypalPayerEmail := resourcePayerEmail resource
      paypalGrossAmount := some A
      paypalCurrencyCode := resourceCurrency resource }
    { sp with
      currentMonthEarnings := jnAdd sp.currentMonthEarnings (some (A * commissionRate))
      totalSales := sp.totalSales + 1
      lastUpdated := some now }
    (by simp) (by simpa using hsp) (spLookup_spReplace_self hspdoc)
  rw [key store u sp hu hsp hspdoc]
  dsimp only
  rw [hstep2]
  dsimp only
  constructor
  · rw [spLookup_spReplace_self (m := spReplace store.salespersons spName
      { sp with
        currentMonthEarnings := jnAdd sp.currentMonthEarnings (some (A * commissionRate))
        totalSales := sp.totalSales + 1
        lastUpdated := some now }) (spLookup_spReplace_self hspdoc)]
    simp [hC, jnAdd, SpDoc.mk.injEq]
    constructor
    · ring
    · ring
  · simp only [List.filter_append, List.length_append]
    simp

/-- Witness for C5 on the sample store and request, delivered twice. -/
theorem C5_witness :
    (spLookup wStore.salespersons "John Doe" = some wSp ∧
      wSp.currentMonthEarnings = some 7 ∧ resourceGrossAmount wResource = some 100) ∧
    (spLookup (paypalWebhookHandler 1000 "2026-10" wReq
        (paypalWebhookHandler 1000 "2026-10" wReq wStore).2).2.salespersons "John Doe" =
      some { wSp with
             currentMonthEarnings := some (7 + 2 * (100 * commissionRate))
             totalSales := wSp.totalSales + 2
             lastUpdated := some 1000 } ∧
    ((paypalWebhookHandler 1000 "2026-10" wReq
        (paypalWebhookHandler 1000 "2026-10" wReq wStore).2).2.individualSales.filter
      (fun r => decide (r.orderId = wResource.id))).length =
      (wStore.individualSales.filter (fun r => decide (r.orderId = wResource.id))).length + 2) :=
  ⟨⟨by decide, rfl, wGross_parse⟩,
    C5_redelivery_double_applies 1000 "2026-10" wReq wStore wResource "u1" "John Doe" wUser wSp
      7 100 rfl (Or.inr (Or.inr rfl)) rfl (by decide) (Or.inl rfl) wGross_parse (by decide) rfl
      (by decide) (by decide) rfl⟩

/-- The salesperson write of one rollover iteration, independent of the
archive branch. -/
theorem rolloverStep_salespersons (now : Int) (month : String) (acc : Store)
    (e : String × SpDoc) :
    (rolloverStep now month acc e).salespersons =
      spReplace acc.salespersons e.1 { e.2 with currentMonthEarnings := some 0, totalSales := 0 } := by
  unfold rolloverStep
  dsimp only
  split <;> rfl

/-- A rollover iteration leaves other salespersons' historical payouts
untouched. -/
theorem rolloverStep_hist_ne (now : Int) (month : String) (acc : Store) (e : String × SpDoc)
    (k : String) (hk : k ≠ e.1) (m' : String) :
    (rolloverStep now month acc e).historicalPayouts k m' = acc.historicalPayouts k m' := by
  unfold rolloverStep
  dsimp only
  split
  · dsimp only
    rw [if_neg (fun hc => hk hc.1)]
  · rfl

/-- The whole rollover fold leaves a salesperson it never visits
untouched, both in the salespersons collection and in the historical
payouts. -/
theorem rollover_fold_frame (now : Int) (month : String) (l : List (String × SpDoc))
    (acc : Store) (k : String) (h : k ∉ l.map Prod.fst) :
    spLookup (l.foldl (rolloverStep now month) acc).salespersons k =
      spLookup acc.salespersons k ∧
    ∀ m', (l.foldl (rolloverStep now month) acc).historicalPayouts k m' =
      acc.historicalPayouts k m' := by
  induction l generalizing acc with
  | nil => exact ⟨rfl, fun _ => rfl⟩
  | cons e rest ih =>
    have hke : k ≠ e.1 := by
      intro hh
      exact h (by simp [hh])
    have hrest : k ∉ rest.map Prod.fst := by
      intro hh
      exact h (by simp [hh])
    rw [List.foldl_cons]
    obtain ⟨ih1, ih2⟩ := ih (rolloverStep now month acc e) hrest
    refine ⟨?_, fun m' => ?_⟩
    · rw [ih1, rolloverStep_salespersons]
      exact spLookup_spReplace_ne hke
    · rw [ih2 m']
      exact rolloverStep_hist_ne now month acc e k hke m'

/-- A successful lookup splits the snapshot at the first occurrence of the
key. -/
theorem spLookup_split {m : List (String × SpDoc)} {k : String} {sp : SpDoc}
    (h : spLookup m k = some sp) :
    ∃ l1 l2, m = l1 ++ (k, sp) :: l2 ∧ k ∉ l1.map Prod.fst := by
  induction m with
  | nil => simp [spLookup] at h
  | cons e rest ih =>
    by_cases he : e.1 = k
    · refine ⟨[], rest, ?_, by simp⟩
      have h2 : e.2 = sp := by
        simpa [spLookup, he] using h
      have h3 : e = (k, sp) := by
        rw [← he, ← h2]
      rw [h3]
      simp
    · obtain ⟨l1, l2, heq, hnot⟩ := ih (by simpa [spLookup, he] using h)
      refine ⟨e :: l1, l2, by simp [heq], ?_⟩
      intro hh
      rw [List.map_cons, List.mem_cons] at hh
      rcases hh with h1 | h1
      · exact he h1.symm
      · exact hnot h1

/-- C6 amended: for every salesperson record processed by Monthly
Rollover, the current-period counters are reset to zero, and a historical
record with earnings = E and the sale count is written when E > 0 or the
sale count is positive; only when E = 0 and the sale count is 0 is no
historical record produced (the reset is then a no-op). -/
theorem C6_rollover_amended (now : Int) (month : String) (store : Store)
    (k : String) (sp : SpDoc) (E : ℚ)
    (hnodup : (store.salespersons.map Prod.fst).Nodup)
    (hk : spLookup store.salespersons k = some sp)
    (hE : sp.currentMonthEarnings = some E) :
    spLookup (resetMonthlyEarnings now month store).salespersons k =
      some { sp with currentMonthEarnings := some 0, totalSales := 0 } ∧
    (E > 0 ∨ sp.totalSales > 0 →
      (resetMonthlyEarnings now month store).historicalPayouts k month =
        some { month := month, earnings := E, totalCustomers := sp.totalSales,
               archivedAt := now }) ∧
    (E = 0 ∧ sp.totalSales = 0 →
      ∀ m', (resetMonthlyEarnings now month store).historicalPayouts k m' =
        store.historicalPayouts k m') := by
  obtain ⟨l1, l2, heq, h1⟩ := spLookup_split hk
  have h2 : k ∉ l2.map Prod.fst := by
    have hn := hnodup
    rw [heq] at hn
    simp only [List.map_append, List.map_cons] at hn
    have hr := List.Nodup.of_append_right hn
    rw [List.nodup_cons] at hr
    exact hr.1
  unfold resetMonthlyEarnings
  rw [heq, List.foldl_append, List.foldl_cons]
  have hframe1 := rollover_fold_frame now month l1 store k h1
  have hacc1 : spLookup (l1.foldl (rolloverStep now month) store).salespersons k = some sp := by
    rw [hframe1.1]
    exact hk
  have hframe2 := rollover_fold_frame now month l2
    (rolloverStep now month (l1.foldl (rolloverStep now month) store) (k, sp)) k h2
  refine ⟨?_, ?_, ?_⟩
  · rw [hframe2.1, rolloverStep_salespersons]
    exact spLookup_spReplace_self hacc1
  · intro hpos
    rw [hframe2.2 month]
    simp only [rolloverStep, hE]
    rw [if_pos hpos]
    dsimp only
    rw [if_pos ⟨rfl, rfl⟩]
  · rintro ⟨hE0, hS0⟩ m'
    rw [hframe2.2 m']
    simp only [rolloverStep, hE, hE0, hS0]
    simp only [gt_iff_lt, lt_irrefl, or_self, if_false]
    exact hframe1.2 m'

/-- A salesperson with zero current earnings but one recorded sale. -/
def c6Sp : SpDoc := ⟨none, none, some "Zed", some 0, 1, none⟩

/-- A store holding only that salesperson. -/
def c6Store : Store := ⟨fun _ => none, [("Zed", c6Sp)], [], fun _ _ => none⟩

/-- C6 counterexample: rolling over a salesperson whose current-period
earnings are 0 but whose sale count is 1 still writes a historical record
(with earnings 0), and the reset is not a no-op — contradicting the claim
that E = 0 produces no historical record and only a no-op reset. -/
theorem C6_counterexample :
    c6Sp.currentMonthEarnings = some 0 ∧
    (resetMonthlyEarnings 5 "2026-10" c6Store).historicalPayouts "Zed" "2026-10" =
      some { month := "2026-10", earnings := 0, totalCustomers := 1, archivedAt := 5 } ∧
    spLookup (resetMonthlyEarnings 5 "2026-10" c6Store).salespersons "Zed" =
      some { c6Sp with currentMonthEarnings := some 0, totalSales := 0 } :=
  ⟨rfl, by decide, by decide⟩

/-- A salesperson with positive earnings and sales for the C6 witness. -/
def c6wSp : SpDoc := ⟨none, none, some "Amy", some 3, 2, none⟩

/-- A store holding only that salesperson. -/
def c6wStore : Store := ⟨fun _ => none, [("Amy", c6wSp)], [], fun _ _ => none⟩

/-- Witness for the amended C6 on a salesperson with earnings 3. -/
theorem C6_witness :
    ((c6wStore.salespersons.map Prod.fst).Nodup ∧
      spLookup c6wStore.salespersons "Amy" = some c6wSp ∧
      c6wSp.currentMonthEarnings = some 3) ∧
    (spLookup (resetMonthlyEarnings 7 "2026-11" c6wStore).salespersons "Amy" =
      some { c6wSp with currentMonthEarnings := some 0, totalSales := 0 } ∧
    ((3 : ℚ) > 0 ∨ c6wSp.totalSales > 0 →
      (resetMonthlyEarnings 7 "2026-11" c6wStore).historicalPayouts "Amy" "2026-11" =
        some { month := "2026-11", earnings := 3, totalCustomers := c6wSp.totalSales,
               archivedAt := 7 }) ∧
    ((3 : ℚ) = 0 ∧ c6wSp.totalSales = 0 →
      ∀ m', (resetMonthlyEarnings 7 "2026-11" c6wStore).historicalPayouts "Amy" m' =
        c6wStore.historicalPayouts "Amy" m')) :=
  ⟨⟨by decide, by decide, rfl⟩,
    C6_rollover_amended 7 "2026-11" c6wStore "Amy" c6wSp 3 (by decide) (by decide) rfl⟩

end PaypalWebhook
